import Mathlib

/-!
Shallow embedding of the Cypher-X trade-validation-and-execution pipeline:
the trading guardrails policy (slippage bounds, token whitelist, price
lookup, daily volume ledger) and the swap executor (wallet initialization,
re-validation, balance check, approval, minimum-output computation, swap
submission and reconciliation).

USD values and prices are modelled as exact rationals, big integers as
unbounded `Int`, the in-memory daily volume `Map` as a function
`String → Option VolumeRecord`, and every network collaborator as an
explicit `Except`-valued outcome supplied by an environment record, so
that a fault of a collaborator is an ordinary input.  Network invocations
are counted explicitly so that claims about which collaborators are
contacted can be stated.
-/

namespace CypherX

/-- A candidate trade, as passed to the guardrails policy.  `amountIn` is
the already-parsed big integer (the source carries it as a decimal string
and parses it with BigInt). -/
structure TradingParams where
  tokenIn : String
  tokenOut : String
  amountIn : Int
  slippageBps : Int
  walletAddress : String
deriving Repr, DecidableEq

/-- Structured diagnostic payloads produced by the individual checks
(the source types this field as `any`; these constructors enumerate the
object shapes the source actually builds). -/
inductive PolicyDetails where
  | slippageChecked (requestedSlippage maxAllowed : Int)
  | slippageLow (requestedSlippage minimum : Int)
  | volumeChecked (currentVolume tradeValue newTotal limit : ℚ)
  | tokenPair (tokenIn tokenOut : String)
  | amountOnly (amountIn : Int)
  | allChecks (slippageValidated volumeValidated : Option PolicyDetails) (tradeValueUsd : ℚ)
deriving Repr

/-- Outcome of a policy validation. -/
structure PolicyValidationResult where
  isValid : Bool
  reason : Option String := none
  details : Option PolicyDetails := none
deriving Repr

/-- One entry of the daily volume tracker: the UTC day key and the
cumulative traded USD value. -/
structure VolumeRecord where
  date : String
  volume : ℚ
deriving Repr, DecidableEq

/-- The in-memory daily volume tracker, keyed by
`walletAddress ++ "-" ++ day`. -/
def Ledger : Type := String → Option VolumeRecord

/-- Environment of the guardrails policy: configuration values and the
outcomes of the two network collaborators.  `whitelistQuery` is the joint
outcome of the pair of `isWhitelisted` contract calls (they are awaited
together, so a single fault rejects both); `priceResponse` is the body of
the price-oracle HTTP response, keyed by lowercased token address, or the
fault that the request raised. -/
structure PolicyEnv where
  today : String
  maxDailyVolumeUsd : ℚ
  maxSlippageBps : Int
  whitelistContract : Option String
  whitelistQuery : String → String → Except String (Bool × Bool)
  priceResponse : Except String (String → Option ℚ)

/-- Slippage bounds check: reject above the configured maximum, then
reject below 1 basis point. -/
def validateSlippage (env : PolicyEnv) (slippageBps : Int) : PolicyValidationResult :=
  if slippageBps > env.maxSlippageBps then
    { isValid := false
      reason := some "Slippage exceeds maximum allowed"
      details := some (.slippageChecked slippageBps env.maxSlippageBps) }
  else if slippageBps < 1 then
    { isValid := false
      reason := some "Slippage too low (unrealistic)"
      details := some (.slippageLow slippageBps 1) }
  else
    { isValid := true
      details := some (.slippageChecked slippageBps env.maxSlippageBps) }

/-- Whitelist check.  Returns the boolean outcome together with the number
of on-chain whitelist queries performed (0 when the contract address is
not configured and the check is skipped as passed; 1 when the pair query
is attempted).  A fault of the query is caught and turned into `false`
(fail closed). -/
def validateTokenWhitelist (env : PolicyEnv) (tokenIn tokenOut : String) : Bool × Nat :=
  match env.whitelistContract with
  | none => (true, 0)
  | some _ =>
    match env.whitelistQuery tokenIn tokenOut with
    | .error _ => (false, 1)
    | .ok (tokenInWhitelisted, tokenOutWhitelisted) =>
      (tokenInWhitelisted && tokenOutWhitelisted, 1)

/-- Price fetch.  Returns the price table together with the number of
price-oracle requests performed (always 1: the HTTP request is attempted
even when it fails).  On a fault, a default table mapping each requested
address, lowercased, to 1 USD is returned. -/
def getTokenPrices (env : PolicyEnv) (tokenAddresses : List String) :
    (String → Option ℚ) × Nat :=
  match env.priceResponse with
  | .ok data => (data, 1)
  | .error _ =>
    (fun address =>
      if (tokenAddresses.map String.toLower).contains address then some 1 else none, 1)

/-- The USD price of `tokenIn` actually used by the volume computation:
the table entry at the lowercased address, with 0 (a falsy value) and a
missing entry both replaced by 1. -/
def tokenInPriceOf (tokenPrices : String → Option ℚ) (tokenIn : String) : ℚ :=
  match tokenPrices tokenIn.toLower with
  | some p => if p = 0 then 1 else p
  | none => 1

/-- Daily volume check.  Looks up the running total for
`walletAddress ++ "-" ++ today`, rejects when the new total would exceed
the configured maximum (leaving the ledger untouched), and otherwise
commits the new running total to the ledger. -/
def validateDailyVolumeLimit (env : PolicyEnv) (walletAddress : String)
    (tradeValueUsd : ℚ) (ledger : Ledger) : PolicyValidationResult × Ledger :=
  let today := env.today
  let maxDailyVolumeUsd := env.maxDailyVolumeUsd
  let trackerKey := walletAddress ++ "-" ++ today
  let currentData := (ledger trackerKey).getD ⟨today, 0⟩
  let newTotalVolume := currentData.volume + tradeValueUsd
  if newTotalVolume > maxDailyVolumeUsd then
    ({ isValid := false
       reason := some "Daily volume limit exceeded"
       details := some (.volumeChecked currentData.volume tradeValueUsd
         newTotalVolume maxDailyVolumeUsd) }, ledger)
  else
    ({ isValid := true
       details := some (.volumeChecked currentData.volume tradeValueUsd
         newTotalVolume maxDailyVolumeUsd) },
     fun k => if k = trackerKey then some ⟨today, newTotalVolume⟩ else ledger k)

/-- The estimated USD value of the trade, exactly as step 3 of the policy
computes it: the input amount times the effective `tokenIn` price, divided
by 10^18 (the policy assumes 18-decimal tokens universally). -/
def tradeValueUsdOf (env : PolicyEnv) (params : TradingParams) : ℚ :=
  (params.amountIn : ℚ) *
    tokenInPriceOf (getTokenPrices env [params.tokenIn, params.tokenOut]).1 params.tokenIn /
    (10 ^ 18 : ℚ)

/-- Full outcome of one guardrails validation call: the decision, the
ledger after the call, and how many times each network collaborator was
invoked during the call. -/
structure GuardrailsOutcome where
  result : PolicyValidationResult
  ledger : Ledger
  whitelistOracleCalls : Nat
  priceOracleCalls : Nat

/-- The main guardrails policy, in the exact order of the source: slippage
bounds, token whitelist, price fetch and trade-value computation, daily
volume limit (which commits to the ledger on success), then the
amount-positivity and self-swap checks, finally the composite success
result. -/
def validateTradingGuardrails (env : PolicyEnv) (params : TradingParams)
    (ledger : Ledger) : GuardrailsOutcome :=
  let slippageValidation := validateSlippage env params.slippageBps
  if slippageValidation.isValid = false then
    ⟨slippageValidation, ledger, 0, 0⟩
  else
    let whitelistOutcome := validateTokenWhitelist env params.tokenIn params.tokenOut
    if whitelistOutcome.1 = false then
      ⟨{ isValid := false
         reason := some "One or both tokens not whitelisted"
         details := some (.tokenPair params.tokenIn params.tokenOut) },
       ledger, whitelistOutcome.2, 0⟩
    else
      let pricesOutcome := getTokenPrices env [params.tokenIn, params.tokenOut]
      let tradeValueUsd := tradeValueUsdOf env params
      let volumeOutcome := validateDailyVolumeLimit env params.walletAddress tradeValueUsd ledger
      if volumeOutcome.1.isValid = false then
        ⟨volumeOutcome.1, volumeOutcome.2, whitelistOutcome.2, pricesOutcome.2⟩
      else if params.amountIn ≤ 0 then
        ⟨{ isValid := false
           reason := some "Invalid trade amount"
           details := some (.amountOnly params.amountIn) },
         volumeOutcome.2, whitelistOutcome.2, pricesOutcome.2⟩
      else if params.tokenIn = params.tokenOut then
        ⟨{ isValid := false
           reason := some "Cannot swap token to itself"
           details := some (.tokenPair params.tokenIn params.tokenOut) },
         volumeOutcome.2, whitelistOutcome.2, pricesOutcome.2⟩
      else
        ⟨{ isValid := true
           details := some (.allChecks slippageValidation.details volumeOutcome.1.details
             tradeValueUsd) },
         volumeOutcome.2, whitelistOutcome.2, pricesOutcome.2⟩

/-- Parameters of the swap executor. -/
structure SwapParams where
  tokenIn : String
  tokenOut : String
  amountIn : Int
  slippageBps : Int
  recipient : String
deriving Repr, DecidableEq

/-- Result of the swap executor.  Optional fields are absent on the paths
that do not set them. -/
structure SwapResult where
  success : Bool
  txHash : Option String := none
  amountOut : Option String := none
  gasUsed : Option String := none
  effectiveSlippage : Option ℚ := none
  error : Option String := none
deriving Repr, DecidableEq

/-- Decimals and balance of a token for the signing wallet, as read from
the token contract. -/
structure TokenInfo where
  decimals : Int
  balance : Int
deriving Repr, DecidableEq

/-- One log entry of a transaction receipt.  `data` is the raw hex data
string of the event. -/
structure LogEntry where
  topics : List String
  data : String
deriving Repr, DecidableEq

/-- A confirmed transaction receipt. -/
structure Receipt where
  hash : String
  gasUsed : Option Int
  logs : List LogEntry
deriving Repr, DecidableEq

/-- The exact-input-single parameter tuple handed to the swap router. -/
structure SwapCallParams where
  tokenIn : String
  tokenOut : String
  fee : Int
  recipient : String
  deadline : Int
  amountIn : Int
  amountOutMinimum : Int
  sqrtPriceLimitX96 : Int
deriving Repr, DecidableEq

/-- Environment of the swap executor: the policy environment plus the
outcome of each chain collaborator, each independently faultable.
`walletOutcome` is the raw result of connecting the key-management client
and initializing the signing wallet (its address on success);
`tokenInfoOutcome` the decimals/balance read; `approveOutcome` the
approval transaction hash after confirmation; `swapOutcome` the confirmed
swap receipt produced by the router for the submitted call parameters.
`now` is the current wall-clock time in milliseconds. -/
structure SwapEnv where
  policyEnv : PolicyEnv
  now : Int
  walletOutcome : Except String String
  tokenInfoOutcome : Except String TokenInfo
  routerAddress : Option String
  approveOutcome : Except String String
  swapOutcome : SwapCallParams → Except String Receipt

/-- Wallet initialization: any underlying fault is caught and re-raised
with the wrapping message of the source. -/
def initializeLitWallet (env : SwapEnv) : Except String String :=
  match env.walletOutcome with
  | .ok walletAddress => .ok walletAddress
  | .error e => .error ("Lit wallet initialization failed: " ++ e)

/-- The event topic the reconciliation step looks for: the keccak
identifier of the Transfer event signature, modelled as a tagged string
constant. -/
def transferEventTopic : String := "id:Transfer(address,address,uint256)"

/-- Minimum amount out from the expected output and the slippage
tolerance.  BigInt division truncates toward zero, hence `Int.tdiv`. -/
def calculateMinAmountOut (expectedAmountOut : Int) (slippageBps : Int) : Int :=
  let slippageMultiplier := 10000 - slippageBps
  Int.tdiv (expectedAmountOut * slippageMultiplier) 10000

/-- The fixed-haircut output estimate used in place of a real quote:
98 percent of the input amount, in BigInt arithmetic. -/
def estimatedAmountOutOf (amountIn : Int) : Int :=
  Int.tdiv (amountIn * 98) 100

/-- The minimum-output bound exactly as the executor computes it: the
haircut estimate fed into `calculateMinAmountOut`. -/
def amountOutMinimumOf (amountIn slippageBps : Int) : Int :=
  calculateMinAmountOut (estimatedAmountOutOf amountIn) slippageBps

/-- The call parameters the executor submits to the router: the fixed
0.3 percent fee tier, a deadline 600 seconds past the current time (the
clock reads milliseconds and is floored to seconds), the minimum-output
bound, and no price limit. -/
def swapCallParamsOf (env : SwapEnv) (params : SwapParams) : SwapCallParams :=
  { tokenIn := params.tokenIn
    tokenOut := params.tokenOut
    fee := 3000
    recipient := params.recipient
    deadline := Int.ediv env.now 1000 + 600
    amountIn := params.amountIn
    amountOutMinimum := amountOutMinimumOf params.amountIn params.slippageBps
    sqrtPriceLimitX96 := 0 }

/-- Value of a hexadecimal digit character. -/
def hexDigitVal (c : Char) : Option Nat :=
  if '0' ≤ c ∧ c ≤ '9' then some (c.toNat - 48)
  else if 'a' ≤ c ∧ c ≤ 'f' then some (c.toNat - 87)
  else if 'A' ≤ c ∧ c ≤ 'F' then some (c.toNat - 55)
  else none

/-- Hexadecimal string value (digits only, no prefix). -/
def parseHexNat (l : List Char) : Option Nat :=
  l.foldl (fun acc c => acc.bind fun n => (hexDigitVal c).map fun d => n * 16 + d) (some 0)

/-- Numeric value of a BigInt-style literal: 0x-prefixed hex or decimal.
Strings that BigInt would reject are mapped to 0 (the executor only ever
parses event data hex strings taken from a confirmed receipt). -/
def jsBigIntVal (s : String) : Int :=
  if s.startsWith "0x" then ((parseHexNat (s.drop 2).toList).getD 0 : Int)
  else s.toInt?.getD 0

/-- The raw transferred amount recovered from the receipt: the data of the
first log whose first topic is the Transfer event topic, with a missing
log (or falsy data) replaced by the string 0. -/
def actualAmountOutOf (receipt : Receipt) : String :=
  match receipt.logs.find? (fun log => log.topics.head? = some transferEventTopic) with
  | some log => if log.data = "" then "0" else log.data
  | none => "0"

/-- The effective slippage reported on success: 0 when the recovered
amount string is the literal 0, otherwise the truncated BigInt expression
divided by 100. -/
def effectiveSlippageOf (estimatedAmountOut : Int) (actualAmountOut : String) : ℚ :=
  if actualAmountOut ≠ "0" then
    ((Int.tdiv ((estimatedAmountOut - jsBigIntVal actualAmountOut) * 10000)
      estimatedAmountOut : Int) : ℚ) / 100
  else 0

/-- The body of the executor, inside its try block: a thrown error is an
`Except.error` carrying the message together with the ledger at the point
of the throw (side effects already performed stay performed).  Early
returns of failure results are ordinary `.ok` values. -/
def executeSwapBody (env : SwapEnv) (params : SwapParams) (ledger : Ledger) :
    Except (String × Ledger) (SwapResult × Ledger) :=
  match initializeLitWallet env with
  | .error e => .error (e, ledger)
  | .ok walletAddress =>
    let policyOutcome := validateTradingGuardrails env.policyEnv
      { tokenIn := params.tokenIn
        tokenOut := params.tokenOut
        amountIn := params.amountIn
        slippageBps := params.slippageBps
        walletAddress := walletAddress } ledger
    if policyOutcome.result.isValid = false then
      .ok ({ success := false
             error := some ("Policy validation failed: "
               ++ policyOutcome.result.reason.getD "undefined") }, policyOutcome.ledger)
    else
      match env.tokenInfoOutcome with
      | .error e => .error (e, policyOutcome.ledger)
      | .ok tokenInInfo =>
        if tokenInInfo.balance < params.amountIn then
          .ok ({ success := false
                 error := some ("Insufficient balance. Required: " ++ toString params.amountIn
                   ++ ", Available: " ++ toString tokenInInfo.balance) }, policyOutcome.ledger)
        else
          match env.routerAddress with
          | none => .error ("UNISWAP_V3_ROUTER not configured", policyOutcome.ledger)
          | some _ =>
            match env.approveOutcome with
            | .error e => .error (e, policyOutcome.ledger)
            | .ok _ =>
              let estimatedAmountOut := estimatedAmountOutOf params.amountIn
              match env.swapOutcome (swapCallParamsOf env params) with
              | .error e => .error (e, policyOutcome.ledger)
              | .ok receipt =>
                let actualAmountOut := actualAmountOutOf receipt
                .ok ({ success := true
                       txHash := some receipt.hash
                       amountOut := some actualAmountOut
                       gasUsed := receipt.gasUsed.map toString
                       effectiveSlippage :=
                         some (effectiveSlippageOf estimatedAmountOut actualAmountOut) },
                     policyOutcome.ledger)

/-- The executor: the body wrapped in the catch clause that converts any
thrown error into a failure result carrying the message. -/
def executeSwap (env : SwapEnv) (params : SwapParams) (ledger : Ledger) :
    SwapResult × Ledger :=
  match executeSwapBody env params ledger with
  | .ok r => r
  | .error (e, l) => ({ success := false, error := some e }, l)

/-! ## Claim C3: daily volume accumulation -/

/-- Scenario environment for the daily-volume claims: UTC day 2026-02-01,
the default limits (10000 USD daily volume, 300 bps slippage), whitelist
unconfigured, price oracle down. -/
def c3Env : PolicyEnv :=
  { today := "2026-02-01"
    maxDailyVolumeUsd := 10000
    maxSlippageBps := 300
    whitelistContract := none
    whitelistQuery := fun _ _ => .ok (true, true)
    priceResponse := .error "price oracle down" }

/-- Scenario ledger: wallet 0xabc already has 9000 USD of volume today. -/
def c3Ledger : Ledger :=
  fun k => if k = "0xabc-2026-02-01" then some ⟨"2026-02-01", 9000⟩ else none

/-- The empty daily volume tracker. -/
def emptyLedger : Ledger := fun _ => none

/-- An environment with the whitelist contract configured and a healthy
whitelist query and price oracle. -/
def wlOkEnv : PolicyEnv :=
  { c3Env with
    whitelistContract := some "0xwhitelist"
    priceResponse := .ok fun _ => some 1 }

/-- An environment with the whitelist contract configured whose on-chain
query faults. -/
def wlFailEnv : PolicyEnv :=
  { c3Env with
    whitelistContract := some "0xwhitelist"
    whitelistQuery := fun _ _ => .error "rpc unreachable" }

/-- A well-formed trade intent: distinct tokens, one full 18-decimal unit,
50 bps slippage. -/
def okParams : TradingParams :=
  { tokenIn := "0xaaa", tokenOut := "0xbbb", amountIn := 10 ^ 18
    slippageBps := 50, walletAddress := "0xw" }

/-- A self-swap intent (same token on both sides). -/
def selfSwapParams : TradingParams :=
  { okParams with tokenOut := "0xaaa", amountIn := 2 * 10 ^ 18 }

/-- An intent with a zero input amount. -/
def zeroAmountParams : TradingParams := { okParams with amountIn := 0 }

/-- An intent whose slippage exceeds the default 300 bps maximum. -/
def highSlippageParams : TradingParams := { okParams with slippageBps := 500 }

/-- A confirmed receipt whose logs contain no Transfer event. -/
def c7Receipt : Receipt :=
  { hash := "0xswaptx", gasUsed := some 21000
    logs := [{ topics := ["id:Swap(address,address)"], data := "0x64" }] }

/-- Swap parameters matching the well-formed intent. -/
def c7SwapParams : SwapParams :=
  { tokenIn := "0xaaa", tokenOut := "0xbbb", amountIn := 10 ^ 18
    slippageBps := 50, recipient := "0xrcpt" }

/-- A fully healthy executor environment whose swap receipt lacks the
Transfer event. -/
def c7SwapEnv : SwapEnv :=
  { policyEnv := c3Env
    now := 1767225600000
    walletOutcome := .ok "0xw"
    tokenInfoOutcome := .ok { decimals := 18, balance := 10 ^ 19 }
    routerAddress := some "0xrouter"
    approveOutcome := .ok "0xapprovetx"
    swapOutcome := fun _ => .ok c7Receipt }

/-- The healthy executor environment with a faulting approval step. -/
def c8SwapEnv : SwapEnv :=
  { c7SwapEnv with approveOutcome := .error "approval transaction reverted" }

/-- The concatenated tracker key of the C3 scenario. -/
theorem c3Key : "0xabc" ++ "-" ++ "2026-02-01" = "0xabc-2026-02-01" := rfl

/-- Behavior of the slippage check above the maximum. -/
theorem validateSlippage_high (env : PolicyEnv) (s : Int) (h : s > env.maxSlippageBps) :
    validateSlippage env s =
      { isValid := false, reason := some "Slippage exceeds maximum allowed"
        details := some (.slippageChecked s env.maxSlippageBps) } := by
  unfold validateSlippage
  rw [if_pos h]

/-- Behavior of the slippage check below one basis point. -/
theorem validateSlippage_low (env : PolicyEnv) (s : Int)
    (h1 : ¬s > env.maxSlippageBps) (h2 : s < 1) :
    validateSlippage env s =
      { isValid := false, reason := some "Slippage too low (unrealistic)"
        details := some (.slippageLow s 1) } := by
  unfold validateSlippage
  rw [if_neg h1, if_pos h2]

/-- Behavior of the slippage check inside the bounds. -/
theorem validateSlippage_ok (env : PolicyEnv) (s : Int)
    (h1 : ¬s > env.maxSlippageBps) (h2 : ¬s < 1) :
    validateSlippage env s =
      { isValid := true, reason := none
        details := some (.slippageChecked s env.maxSlippageBps) } := by
  unfold validateSlippage
  rw [if_neg h1, if_neg h2]

/-- A rejecting volume check leaves the ledger unchanged. -/
theorem validateDailyVolumeLimit_fail_ledger (env : PolicyEnv) (w : String) (v : ℚ)
    (l : Ledger) (h : (validateDailyVolumeLimit env w v l).1.isValid = false) :
    (validateDailyVolumeLimit env w v l).2 = l := by
  revert h
  unfold validateDailyVolumeLimit
  dsimp only
  split
  · intro _; rfl
  · intro h; exact absurd h (by simp)

/-- The volume check can touch only the wallet/day key it is called for. -/
theorem validateDailyVolumeLimit_frame (env : PolicyEnv) (w : String) (v : ℚ)
    (l : Ledger) (k : String) (hk : k ≠ w ++ "-" ++ env.today) :
    (validateDailyVolumeLimit env w v l).2 k = l k := by
  unfold validateDailyVolumeLimit
  dsimp only
  split
  · rfl
  · simp [hk]

/-- Inversion: a failing slippage check short-circuits the policy with the
slippage decision, an untouched ledger and no oracle calls. -/
theorem guardrails_slippage_fail (env : PolicyEnv) (params : TradingParams) (l : Ledger)
    (h : (validateSlippage env params.slippageBps).isValid = false) :
    validateTradingGuardrails env params l =
      ⟨validateSlippage env params.slippageBps, l, 0, 0⟩ := by
  unfold validateTradingGuardrails
  dsimp only
  rw [if_pos h]

/-- Inversion: a failing whitelist check (after passing slippage) rejects
with the whitelist reason, an untouched ledger and no price call. -/
theorem guardrails_whitelist_fail (env : PolicyEnv) (params : TradingParams) (l : Ledger)
    (h1 : (validateSlippage env params.slippageBps).isValid = true)
    (h2 : (validateTokenWhitelist env params.tokenIn params.tokenOut).1 = false) :
    validateTradingGuardrails env params l =
      ⟨{ isValid := false, reason := some "One or both tokens not whitelisted"
         details := some (.tokenPair params.tokenIn params.tokenOut) }, l,
       (validateTokenWhitelist env params.tokenIn params.tokenOut).2, 0⟩ := by
  unfold validateTradingGuardrails
  dsimp only
  rw [if_neg (by simp [h1]), if_pos h2]

/-- Inversion: a failing volume check (after passing slippage and
whitelist) returns the volume decision and the volume check's ledger, with
both oracles having been called. -/
theorem guardrails_volume_fail (env : PolicyEnv) (params : TradingParams) (l : Ledger)
    (h1 : (validateSlippage env params.slippageBps).isValid = true)
    (h2 : (validateTokenWhitelist env params.tokenIn params.tokenOut).1 = true)
    (h3 : (validateDailyVolumeLimit env params.walletAddress
      (tradeValueUsdOf env params) l).1.isValid = false) :
    validateTradingGuardrails env params l =
      ⟨(validateDailyVolumeLimit env params.walletAddress (tradeValueUsdOf env params) l).1,
       (validateDailyVolumeLimit env params.walletAddress (tradeValueUsdOf env params) l).2,
       (validateTokenWhitelist env params.tokenIn params.tokenOut).2,
       (getTokenPrices env [params.tokenIn, params.tokenOut]).2⟩ := by
  unfold validateTradingGuardrails
  dsimp only
  rw [if_neg (by simp [h1]), if_neg (by simp [h2]), if_pos h3]

/-- Inversion: a non-positive amount that survives the slippage, whitelist
and volume checks is rejected with the invalid-amount reason, on the
ledger already updated by the volume check. -/
theorem guardrails_amount_fail (env : PolicyEnv) (params : TradingParams) (l : Ledger)
    (h1 : (validateSlippage env params.slippageBps).isValid = true)
    (h2 : (validateTokenWhitelist env params.tokenIn params.tokenOut).1 = true)
    (h3 : (validateDailyVolumeLimit env params.walletAddress
      (tradeValueUsdOf env params) l).1.isValid = true)
    (h4 : params.amountIn ≤ 0) :
    validateTradingGuardrails env params l =
      ⟨{ isValid := false, reason := some "Invalid trade amount"
         details := some (.amountOnly params.amountIn) },
       (validateDailyVolumeLimit env params.walletAddress (tradeValueUsdOf env params) l).2,
       (validateTokenWhitelist env params.tokenIn params.tokenOut).2,
       (getTokenPrices env [params.tokenIn, params.tokenOut]).2⟩ := by
  unfold validateTradingGuardrails
  dsimp only
  rw [if_neg (by simp [h1]), if_neg (by simp [h2]), if_neg (by simp [h3]), if_pos h4]

/-- Inversion: a self swap that survives the earlier checks is rejected
with the self-swap reason, on the ledger already updated by the volume
check. -/
theorem guardrails_self_swap (env : PolicyEnv) (params : TradingParams) (l : Ledger)
    (h1 : (validateSlippage env params.slippageBps).isValid = true)
    (h2 : (validateTokenWhitelist env params.tokenIn params.tokenOut).1 = true)
    (h3 : (validateDailyVolumeLimit env params.walletAddress
      (tradeValueUsdOf env params) l).1.isValid = true)
    (h4 : ¬params.amountIn ≤ 0) (h5 : params.tokenIn = params.tokenOut) :
    validateTradingGuardrails env params l =
      ⟨{ isValid := false, reason := some "Cannot swap token to itself"
         details := some (.tokenPair params.tokenIn params.tokenOut) },
       (validateDailyVolumeLimit env params.walletAddress (tradeValueUsdOf env params) l).2,
       (validateTokenWhitelist env params.tokenIn params.tokenOut).2,
       (getTokenPrices env [params.tokenIn, params.tokenOut]).2⟩ := by
  unfold validateTradingGuardrails
  dsimp only
  rw [if_neg (by simp [h1]), if_neg (by simp [h2]), if_neg (by simp [h3]),
    if_neg h4, if_pos h5]

/-- Inversion: when every check passes, the policy returns the composite
valid decision on the updated ledger. -/
theorem guardrails_success (env : PolicyEnv) (params : TradingParams) (l : Ledger)
    (h1 : (validateSlippage env params.slippageBps).isValid = true)
    (h2 : (validateTokenWhitelist env params.tokenIn params.tokenOut).1 = true)
    (h3 : (validateDailyVolumeLimit env params.walletAddress
      (tradeValueUsdOf env params) l).1.isValid = true)
    (h4 : ¬params.amountIn ≤ 0) (h5 : ¬params.tokenIn = params.tokenOut) :
    validateTradingGuardrails env params l =
      ⟨{ isValid := true, reason := none
         details := some (.allChecks (validateSlippage env params.slippageBps).details
           (validateDailyVolumeLimit env params.walletAddress
             (tradeValueUsdOf env params) l).1.details
           (tradeValueUsdOf env params)) },
       (validateDailyVolumeLimit env params.walletAddress (tradeValueUsdOf env params) l).2,
       (validateTokenWhitelist env params.tokenIn params.tokenOut).2,
       (getTokenPrices env [params.tokenIn, params.tokenOut]).2⟩ := by
  unfold validateTradingGuardrails
  dsimp only
  rw [if_neg (by simp [h1]), if_neg (by simp [h2]), if_neg (by simp [h3]),
    if_neg h4, if_neg h5]

/-- C3: the daily-volume check rejects exactly when the running total plus
the trade value exceeds the limit; a rejection leaves the ledger unchanged
and carries the Daily volume limit exceeded reason with the attempted new
total in the details; an acceptance commits the new running total at the
wallet/day key; and in the concrete scenario a wallet with 9000 USD of
prior volume under a 10000 limit has a 500 USD trade accepted (stored
total 9500) and a subsequent 600 USD trade the same day rejected with
newTotal 10100 in the details. -/
theorem daily_volume_accumulation :
    (∀ (env : PolicyEnv) (w : String) (v : ℚ) (l : Ledger),
      ((validateDailyVolumeLimit env w v l).1.isValid = false ↔
        ((l (w ++ "-" ++ env.today)).getD ⟨env.today, 0⟩).volume + v > env.maxDailyVolumeUsd))
    ∧ (∀ (env : PolicyEnv) (w : String) (v : ℚ) (l : Ledger),
      (validateDailyVolumeLimit env w v l).1.isValid = false →
        (validateDailyVolumeLimit env w v l).2 = l ∧
        (validateDailyVolumeLimit env w v l).1.reason = some "Daily volume limit exceeded" ∧
        (validateDailyVolumeLimit env w v l).1.details = some
          (.volumeChecked ((l (w ++ "-" ++ env.today)).getD ⟨env.today, 0⟩).volume v
            (((l (w ++ "-" ++ env.today)).getD ⟨env.today, 0⟩).volume + v)
            env.maxDailyVolumeUsd))
    ∧ (∀ (env : PolicyEnv) (w : String) (v : ℚ) (l : Ledger),
      (validateDailyVolumeLimit env w v l).1.isValid = true →
        (validateDailyVolumeLimit env w v l).2 (w ++ "-" ++ env.today) =
          some ⟨env.today, ((l (w ++ "-" ++ env.today)).getD ⟨env.today, 0⟩).volume + v⟩)
    ∧ ((validateDailyVolumeLimit c3Env "0xabc" 500 c3Ledger).1.isValid = true
      ∧ (validateDailyVolumeLimit c3Env "0xabc" 500 c3Ledger).2 "0xabc-2026-02-01" =
          some ⟨"2026-02-01", 9500⟩
      ∧ (validateDailyVolumeLimit c3Env "0xabc" 600
          (validateDailyVolumeLimit c3Env "0xabc" 500 c3Ledger).2).1.isValid = false
      ∧ (validateDailyVolumeLimit c3Env "0xabc" 600
          (validateDailyVolumeLimit c3Env "0xabc" 500 c3Ledger).2).1.reason =
          some "Daily volume limit exceeded"
      ∧ (validateDailyVolumeLimit c3Env "0xabc" 600
          (validateDailyVolumeLimit c3Env "0xabc" 500 c3Ledger).2).1.details =
          some (.volumeChecked 9500 600 10100 10000)) := by
  refine ⟨?_, ?_, ?_, ?_, ?_, ?_, ?_, ?_⟩
  · intro env w v l
    unfold validateDailyVolumeLimit
    dsimp only
    split
    · rename_i h
      exact ⟨fun _ => h, fun _ => rfl⟩
    · rename_i h
      constructor
      · intro hc; exact absurd hc (by simp)
      · intro hgt; exact absurd hgt (by simpa using h)
  · intro env w v l
    unfold validateDailyVolumeLimit
    dsimp only
    split
    · intro _; exact ⟨rfl, rfl, rfl⟩
    · intro h; exact absurd h (by simp)
  · intro env w v l
    unfold validateDailyVolumeLimit
    dsimp only
    split
    · intro h; exact absurd h (by simp)
    · intro _; simp
  · norm_num [validateDailyVolumeLimit, c3Env, c3Ledger, c3Key]
  · norm_num [validateDailyVolumeLimit, c3Env, c3Ledger, c3Key]
  · norm_num [validateDailyVolumeLimit, c3Env, c3Ledger, c3Key]
  · norm_num [validateDailyVolumeLimit, c3Env, c3Ledger, c3Key]
  · norm_num [validateDailyVolumeLimit, c3Env, c3Ledger, c3Key]

/-- Witness for C3: the theorem applied to the over-limit second call of
the scenario shows the rejecting call leaves the ledger unchanged. -/
theorem daily_volume_accumulation_witness :
    (validateDailyVolumeLimit c3Env "0xabc" 600
      (validateDailyVolumeLimit c3Env "0xabc" 500 c3Ledger).2).2 =
      (validateDailyVolumeLimit c3Env "0xabc" 500 c3Ledger).2 :=
  (daily_volume_accumulation.2.1 c3Env "0xabc" 600
    (validateDailyVolumeLimit c3Env "0xabc" 500 c3Ledger).2
    (by norm_num [validateDailyVolumeLimit, c3Env, c3Ledger, c3Key])).1

/-! ## Claim C4: out-of-bounds slippage -/

/-- C4: every slippage outside the closed interval from 1 to the
configured maximum is rejected with the matching reason string (exceeds
maximum above the bound, too low below 1), the ledger is left untouched,
and neither oracle is invoked. -/
theorem slippage_out_of_bounds_rejected (env : PolicyEnv) (params : TradingParams)
    (l : Ledger) (hmax : 1 ≤ env.maxSlippageBps)
    (hout : params.slippageBps < 1 ∨ params.slippageBps > env.maxSlippageBps) :
    (validateTradingGuardrails env params l).result.isValid = false
    ∧ (params.slippageBps > env.maxSlippageBps →
        (validateTradingGuardrails env params l).result.reason =
          some "Slippage exceeds maximum allowed")
    ∧ (params.slippageBps < 1 →
        (validateTradingGuardrails env params l).result.reason =
          some "Slippage too low (unrealistic)")
    ∧ (validateTradingGuardrails env params l).ledger = l
    ∧ (validateTradingGuardrails env params l).whitelistOracleCalls = 0
    ∧ (validateTradingGuardrails env params l).priceOracleCalls = 0 := by
  rcases hout with hlow | hhigh
  · have hng : ¬params.slippageBps > env.maxSlippageBps := by omega
    have hs := validateSlippage_low env params.slippageBps hng hlow
    rw [guardrails_slippage_fail env params l (by rw [hs])]
    refine ⟨by rw [hs], ?_, ?_, rfl, rfl, rfl⟩
    · intro hh; exact absurd hh hng
    · intro _; rw [hs]
  · have hs := validateSlippage_high env params.slippageBps hhigh
    rw [guardrails_slippage_fail env params l (by rw [hs])]
    refine ⟨by rw [hs], ?_, ?_, rfl, rfl, rfl⟩
    · intro _; rw [hs]
    · intro hl; exact absurd hl (by omega)

/-- Witness for C4 at 500 bps against the default 300 bps maximum. -/
theorem slippage_out_of_bounds_rejected_witness :
    (validateTradingGuardrails c3Env highSlippageParams emptyLedger).result.isValid = false :=
  (slippage_out_of_bounds_rejected c3Env highSlippageParams emptyLedger
    (by norm_num [c3Env]) (Or.inr (by norm_num [c3Env, highSlippageParams, okParams]))).1

/-! ## Claim C9: frame property of validation -/

/-- C9: one validation call can change at most the single daily-volume
entry keyed by the calling wallet and the current UTC day; every other key
of the ledger is left exactly as it was. -/
theorem validation_frame_property (env : PolicyEnv) (params : TradingParams) (l : Ledger)
    (k : String) (hk : k ≠ params.walletAddress ++ "-" ++ env.today) :
    (validateTradingGuardrails env params l).ledger k = l k := by
  unfold validateTradingGuardrails
  dsimp only
  repeat' split
  all_goals
    first
    | rfl
    | exact validateDailyVolumeLimit_frame env params.walletAddress
        (tradeValueUsdOf env params) l k hk

/-- Witness for C9: a validation for wallet 0xw does not disturb the entry
of wallet 0xabc. -/
theorem validation_frame_property_witness :
    (validateTradingGuardrails c3Env okParams c3Ledger).ledger "0xabc-2026-02-01" =
      c3Ledger "0xabc-2026-02-01" :=
  validation_frame_property c3Env okParams c3Ledger "0xabc-2026-02-01"
    (by simp [okParams, c3Env])

/-! ## Claim C10: the one-dollar price default -/

/-- C10: the USD price used for the volume computation falls back to 1 not
only when the price request faults, but also when the request succeeds and
the response has no entry at the lowercased input token address, and when
the returned price is 0 (a falsy value in the source). -/
theorem token_price_defaults_to_one :
    (∀ (env : PolicyEnv) (data : String → Option ℚ) (tokenIn tokenOut : String),
      env.priceResponse = .ok data → data tokenIn.toLower = none →
        tokenInPriceOf (getTokenPrices env [tokenIn, tokenOut]).1 tokenIn = 1)
    ∧ (∀ (env : PolicyEnv) (data : String → Option ℚ) (tokenIn tokenOut : String),
      env.priceResponse = .ok data → data tokenIn.toLower = some 0 →
        tokenInPriceOf (getTokenPrices env [tokenIn, tokenOut]).1 tokenIn = 1)
    ∧ (∀ (env : PolicyEnv) (e : String) (tokenIn tokenOut : String),
      env.priceResponse = .error e →
        tokenInPriceOf (getTokenPrices env [tokenIn, tokenOut]).1 tokenIn = 1) := by
  refine ⟨?_, ?_, ?_⟩
  · intro env data tIn tOut hok hnone
    simp [getTokenPrices, hok, tokenInPriceOf, hnone]
  · intro env data tIn tOut hok hzero
    simp [getTokenPrices, hok, tokenInPriceOf, hzero]
  · intro env e tIn tOut herr
    simp [getTokenPrices, herr, tokenInPriceOf]

/-- Witness for C10: with the price oracle down, the effective price of
the input token is 1. -/
theorem token_price_defaults_to_one_witness :
    tokenInPriceOf (getTokenPrices c3Env ["0xAAA", "0xbbb"]).1 "0xAAA" = 1 :=
  token_price_defaults_to_one.2.2 c3Env "price oracle down" "0xAAA" "0xbbb" rfl

/-! ## Claim C5: asymmetric whitelist failure -/

/-- C5: with no whitelist contract configured, the whitelist check is
treated as passed (no query is made) and the policy never rejects on
whitelist grounds; with the contract configured and the on-chain query
faulting, the check fails closed and the policy rejects with the
not-whitelisted reason, whatever the tokens are. -/
theorem whitelist_fail_open_fail_closed :
    (∀ (env : PolicyEnv) (tokenIn tokenOut : String),
      env.whitelistContract = none →
        validateTokenWhitelist env tokenIn tokenOut = (true, 0))
    ∧ (∀ (env : PolicyEnv) (params : TradingParams) (l : Ledger),
      env.whitelistContract = none →
        (validateTradingGuardrails env params l).result.reason ≠
          some "One or both tokens not whitelisted")
    ∧ (∀ (env : PolicyEnv) (tokenIn tokenOut c e : String),
      env.whitelistContract = some c →
        env.whitelistQuery tokenIn tokenOut = .error e →
        (validateTokenWhitelist env tokenIn tokenOut).1 = false)
    ∧ (∀ (env : PolicyEnv) (params : TradingParams) (l : Ledger) (c e : String),
      env.whitelistContract = some c →
        env.whitelistQuery params.tokenIn params.tokenOut = .error e →
        (validateSlippage env params.slippageBps).isValid = true →
        (validateTradingGuardrails env params l).result.isValid = false
        ∧ (validateTradingGuardrails env params l).result.reason =
            some "One or both tokens not whitelisted") := by
  have hopen : ∀ (env : PolicyEnv) (tokenIn tokenOut : String),
      env.whitelistContract = none →
        validateTokenWhitelist env tokenIn tokenOut = (true, 0) := by
    intro env tIn tOut h
    unfold validateTokenWhitelist
    rw [h]
  refine ⟨hopen, ?_, ?_, ?_⟩
  · intro env params l h
    unfold validateTradingGuardrails
    dsimp only
    split
    · unfold validateSlippage
      split
      · simp
      · split
        · simp
        · simp
    · split
      · rename_i hwl
        rw [hopen env params.tokenIn params.tokenOut h] at hwl
        exact absurd hwl (by simp)
      · split
        · unfold validateDailyVolumeLimit
          dsimp only
          split
          · simp
          · simp
        · split
          · simp
          · split
            · simp
            · simp
  · intro env tIn tOut c e hc hq
    unfold validateTokenWhitelist
    rw [hc, hq]
  · intro env params l c e hc hq hs
    have hwl : (validateTokenWhitelist env params.tokenIn params.tokenOut).1 = false := by
      unfold validateTokenWhitelist
      rw [hc, hq]
    rw [guardrails_whitelist_fail env params l hs hwl]
    exact ⟨rfl, rfl⟩

/-- Witness for C5: tokens whose query would have said whitelisted are
still rejected when the query faults, and the unconfigured environment
never produces the whitelist reason. -/
theorem whitelist_fail_open_fail_closed_witness :
    (validateTradingGuardrails wlFailEnv okParams emptyLedger).result.isValid = false
    ∧ (validateTradingGuardrails wlFailEnv okParams emptyLedger).result.reason =
        some "One or both tokens not whitelisted" :=
  whitelist_fail_open_fail_closed.2.2.2 wlFailEnv okParams emptyLedger
    "0xwhitelist" "rpc unreachable" rfl rfl
    (by norm_num [validateSlippage, wlFailEnv, c3Env, okParams])

/-- The price-oracle request is attempted exactly once whenever the price
step runs, also when it faults. -/
theorem getTokenPrices_count (env : PolicyEnv) (tokenAddresses : List String) :
    (getTokenPrices env tokenAddresses).2 = 1 := by
  unfold getTokenPrices
  split <;> rfl

/-- With the whitelist contract configured, the pair query is attempted
exactly once, also when it faults. -/
theorem validateTokenWhitelist_count (env : PolicyEnv) (tokenIn tokenOut c : String)
    (hc : env.whitelistContract = some c) :
    (validateTokenWhitelist env tokenIn tokenOut).2 = 1 := by
  unfold validateTokenWhitelist
  rw [hc]
  dsimp only
  split <;> rfl

/-- A rejecting volume check carries the daily-volume reason. -/
theorem validateDailyVolumeLimit_fail_reason (env : PolicyEnv) (w : String) (v : ℚ)
    (l : Ledger) (h : (validateDailyVolumeLimit env w v l).1.isValid = false) :
    (validateDailyVolumeLimit env w v l).1.reason = some "Daily volume limit exceeded" := by
  revert h
  unfold validateDailyVolumeLimit
  dsimp only
  split
  · intro _; rfl
  · intro h; exact absurd h (by simp)

/-- The concatenated tracker key of the 0xw scenarios. -/
theorem okKey : "0xw" ++ "-" ++ "2026-02-01" = "0xw-2026-02-01" := rfl

/-! ## Claim C1: ledger mutation vs decision validity (corrected) -/

/-- Counterexample to C1 as stated: a self-swap intent that passes the
slippage, whitelist and volume checks is rejected (isValid = false), yet
the call has mutated the daily-volume ledger at the wallet/day key. -/
theorem ledger_mutation_on_invalid_decision_cex :
    (validateTradingGuardrails c3Env selfSwapParams emptyLedger).result.isValid = false
    ∧ (validateTradingGuardrails c3Env selfSwapParams emptyLedger).result.reason =
        some "Cannot swap token to itself"
    ∧ (validateTradingGuardrails c3Env selfSwapParams emptyLedger).ledger "0xw-2026-02-01" =
        some ⟨"2026-02-01", 2⟩
    ∧ emptyLedger "0xw-2026-02-01" = none := by
  refine ⟨?_, ?_, ?_, rfl⟩ <;>
    norm_num [validateTradingGuardrails, validateSlippage, validateTokenWhitelist,
      getTokenPrices, tokenInPriceOf, tradeValueUsdOf, validateDailyVolumeLimit,
      c3Env, selfSwapParams, okParams, emptyLedger, okKey]

/-- C1 amended: the ledger is unchanged by every call that returns invalid
with a reason other than the invalid-amount and self-swap reasons (that
is, a call failing the slippage, whitelist or volume check); a call
rejected only by the two final checks has already committed volume budget,
as the counterexample shows. -/
theorem ledger_unchanged_on_early_rejection (env : PolicyEnv) (params : TradingParams)
    (l : Ledger) :
    (validateTradingGuardrails env params l).result.isValid = false →
    (validateTradingGuardrails env params l).result.reason ≠ some "Invalid trade amount" →
    (validateTradingGuardrails env params l).result.reason ≠
      some "Cannot swap token to itself" →
    (validateTradingGuardrails env params l).ledger = l := by
  unfold validateTradingGuardrails
  dsimp only
  split
  · intro _ _ _; rfl
  · split
    · intro _ _ _; rfl
    · split
      · rename_i h3
        intro _ _ _
        exact validateDailyVolumeLimit_fail_ledger env params.walletAddress
          (tradeValueUsdOf env params) l h3
      · split
        · intro _ hr1 _; exact absurd rfl hr1
        · split
          · intro _ _ hr2; exact absurd rfl hr2
          · intro hinv _ _; exact absurd hinv (by simp)

/-- Witness for the amended C1 at a slippage rejection. -/
theorem ledger_unchanged_on_early_rejection_witness :
    (validateTradingGuardrails c3Env highSlippageParams c3Ledger).ledger = c3Ledger :=
  ledger_unchanged_on_early_rejection c3Env highSlippageParams c3Ledger
    (by norm_num [validateTradingGuardrails, validateSlippage, c3Env,
      highSlippageParams, okParams] <;> decide)
    (by norm_num [validateTradingGuardrails, validateSlippage, c3Env,
      highSlippageParams, okParams] <;> decide)
    (by norm_num [validateTradingGuardrails, validateSlippage, c3Env,
      highSlippageParams, okParams] <;> decide)

/-! ## Claim C2: zero amount and network calls (corrected) -/

/-- Counterexample to C2 as stated: with the whitelist configured and both
collaborators healthy, a zero-amount intent is indeed rejected with the
invalid-amount reason, but both the whitelist oracle and the price oracle
have been invoked during the call. -/
theorem amount_checked_after_network_calls_cex :
    (validateTradingGuardrails wlOkEnv zeroAmountParams emptyLedger).result.isValid = false
    ∧ (validateTradingGuardrails wlOkEnv zeroAmountParams emptyLedger).result.reason =
        some "Invalid trade amount"
    ∧ (validateTradingGuardrails wlOkEnv zeroAmountParams emptyLedger).whitelistOracleCalls = 1
    ∧ (validateTradingGuardrails wlOkEnv zeroAmountParams emptyLedger).priceOracleCalls = 1 := by
  refine ⟨?_, ?_, ?_, ?_⟩ <;>
    norm_num [validateTradingGuardrails, validateSlippage, validateTokenWhitelist,
      getTokenPrices, tokenInPriceOf, tradeValueUsdOf, validateDailyVolumeLimit,
      wlOkEnv, c3Env, zeroAmountParams, okParams, emptyLedger, okKey]

/-- C2 amended: an intent with a non-positive amount is always rejected,
but not before the network: whenever the slippage and whitelist checks
pass, the price oracle has been invoked once (and the whitelist oracle
once if configured), and the rejection reason is the volume reason or the
invalid-amount reason — the amount check runs only after the
network-dependent checks. -/
theorem invalid_amount_rejected_after_oracles (env : PolicyEnv) (params : TradingParams)
    (l : Ledger) (h : params.amountIn ≤ 0) :
    (validateTradingGuardrails env params l).result.isValid = false
    ∧ ((validateSlippage env params.slippageBps).isValid = true →
       (validateTokenWhitelist env params.tokenIn params.tokenOut).1 = true →
       (validateTradingGuardrails env params l).priceOracleCalls = 1
       ∧ ((validateTradingGuardrails env params l).result.reason =
            some "Daily volume limit exceeded"
          ∨ (validateTradingGuardrails env params l).result.reason =
            some "Invalid trade amount")
       ∧ (∀ c : String, env.whitelistContract = some c →
           (validateTradingGuardrails env params l).whitelistOracleCalls = 1)) := by
  constructor
  · by_cases h1 : (validateSlippage env params.slippageBps).isValid = false
    · rw [guardrails_slippage_fail env params l h1]; exact h1
    · have h1' : (validateSlippage env params.slippageBps).isValid = true := by
        simpa using h1
      by_cases h2 : (validateTokenWhitelist env params.tokenIn params.tokenOut).1 = false
      · rw [guardrails_whitelist_fail env params l h1' h2]
      · have h2' : (validateTokenWhitelist env params.tokenIn params.tokenOut).1 = true := by
          simpa using h2
        by_cases h3 : (validateDailyVolumeLimit env params.walletAddress
            (tradeValueUsdOf env params) l).1.isValid = false
        · rw [guardrails_volume_fail env params l h1' h2' h3]; exact h3
        · have h3' : (validateDailyVolumeLimit env params.walletAddress
              (tradeValueUsdOf env params) l).1.isValid = true := by
            simpa using h3
          rw [guardrails_amount_fail env params l h1' h2' h3' h]
  · intro hs hw
    by_cases hv : (validateDailyVolumeLimit env params.walletAddress
        (tradeValueUsdOf env params) l).1.isValid = false
    · rw [guardrails_volume_fail env params l hs hw hv]
      refine ⟨getTokenPrices_count env _, ?_, ?_⟩
      · exact Or.inl (validateDailyVolumeLimit_fail_reason env params.walletAddress
          (tradeValueUsdOf env params) l hv)
      · intro c hc
        exact validateTokenWhitelist_count env params.tokenIn params.tokenOut c hc
    · have hv' : (validateDailyVolumeLimit env params.walletAddress
          (tradeValueUsdOf env params) l).1.isValid = true := by
        simpa using hv
      rw [guardrails_amount_fail env params l hs hw hv' h]
      refine ⟨getTokenPrices_count env _, Or.inr rfl, ?_⟩
      intro c hc
      exact validateTokenWhitelist_count env params.tokenIn params.tokenOut c hc

/-- Witness for the amended C2 at the zero-amount counterexample input. -/
theorem invalid_amount_rejected_after_oracles_witness :
    (validateTradingGuardrails wlOkEnv zeroAmountParams emptyLedger).result.isValid = false :=
  (invalid_amount_rejected_after_oracles wlOkEnv zeroAmountParams emptyLedger
    (by norm_num [zeroAmountParams, okParams])).1

/-! ## Claim C6: two-stage minimum-output arithmetic -/

/-- C6: the minimum-output bound the executor passes to the router is
computed in two truncating stages — the 98 percent haircut estimate, then
the slippage factor (10000 minus the bps over 10000) — and at 300 bps an
estimated output of 1000000 units yields a minimum of 970000. -/
theorem min_amount_out_two_stage :
    (∀ (env : SwapEnv) (params : SwapParams),
      (swapCallParamsOf env params).amountOutMinimum =
        Int.tdiv (Int.tdiv (params.amountIn * 98) 100 * (10000 - params.slippageBps)) 10000)
    ∧ calculateMinAmountOut 1000000 300 = 970000 := by
  exact ⟨fun env params => rfl, by decide⟩

/-! ## Claim C7: missing Transfer event still succeeds -/

/-- C7: when every execution step completes and the confirmed receipt has
no log whose first topic is the Transfer event topic, the executor still
returns success with the amount out reported as the string 0. -/
theorem missing_transfer_event_reports_success (env : SwapEnv) (params : SwapParams)
    (l : Ledger) (w : String) (info : TokenInfo) (a : String) (receipt : Receipt)
    (hw : env.walletOutcome = .ok w)
    (hpol : (validateTradingGuardrails env.policyEnv
      { tokenIn := params.tokenIn, tokenOut := params.tokenOut
        amountIn := params.amountIn, slippageBps := params.slippageBps
        walletAddress := w } l).result.isValid = true)
    (hinfo : env.tokenInfoOutcome = .ok info)
    (hbal : ¬info.balance < params.amountIn)
    (hrouter : env.routerAddress.isSome)
    (happrove : env.approveOutcome = .ok a)
    (hswap : env.swapOutcome (swapCallParamsOf env params) = .ok receipt)
    (hlogs : receipt.logs.find?
      (fun log => log.topics.head? = some transferEventTopic) = none) :
    (executeSwap env params l).1.success = true
    ∧ (executeSwap env params l).1.amountOut = some "0" := by
  have hinit : initializeLitWallet env = .ok w := by
    unfold initializeLitWallet
    rw [hw]
  obtain ⟨r, hr⟩ := Option.isSome_iff_exists.mp hrouter
  unfold executeSwap executeSwapBody
  rw [hinit]
  dsimp only
  rw [if_neg (by simp [hpol]), hinfo]
  dsimp only
  rw [if_neg hbal, hr]
  dsimp only
  rw [happrove]
  dsimp only
  rw [hswap]
  dsimp only
  unfold actualAmountOutOf
  rw [hlogs]
  exact ⟨rfl, rfl⟩

/-- Witness for C7 on the healthy environment with a Transfer-free
receipt. -/
theorem missing_transfer_event_reports_success_witness :
    (executeSwap c7SwapEnv c7SwapParams emptyLedger).1.success = true
    ∧ (executeSwap c7SwapEnv c7SwapParams emptyLedger).1.amountOut = some "0" :=
  missing_transfer_event_reports_success c7SwapEnv c7SwapParams emptyLedger
    "0xw" { decimals := 18, balance := 10 ^ 19 } "0xapprovetx" c7Receipt
    rfl
    (by norm_num [validateTradingGuardrails, validateSlippage, validateTokenWhitelist,
      getTokenPrices, tokenInPriceOf, tradeValueUsdOf, validateDailyVolumeLimit,
      c7SwapEnv, c7SwapParams, c3Env, emptyLedger] <;> simp)
    rfl
    (by norm_num [c7SwapEnv, c7SwapParams])
    rfl
    rfl
    rfl
    rfl

/-- A failing slippage check always carries a reason. -/
theorem validateSlippage_fail_reason (env : PolicyEnv) (s : Int)
    (h : (validateSlippage env s).isValid = false) :
    ((validateSlippage env s).reason).isSome = true := by
  revert h
  unfold validateSlippage
  split
  · intro _; rfl
  · split
    · intro _; rfl
    · intro h; exact absurd h (by simp)

/-! ## Claim C8: failures become typed results -/

/-- C8: every invalid policy decision carries a reason; every failing swap
result carries an error message, for every combination of collaborator
faults; and a thrown error inside the executor body is caught by the
wrapper and returned as a failure result with that message. -/
theorem failures_propagate_as_results :
    (∀ (env : PolicyEnv) (params : TradingParams) (l : Ledger),
      (validateTradingGuardrails env params l).result.isValid = false →
        ((validateTradingGuardrails env params l).result.reason).isSome = true)
    ∧ (∀ (env : SwapEnv) (params : SwapParams) (l : Ledger),
      (executeSwap env params l).1.success = false →
        ((executeSwap env params l).1.error).isSome = true)
    ∧ (∀ (env : SwapEnv) (params : SwapParams) (l l2 : Ledger) (e : String),
      executeSwapBody env params l = .error (e, l2) →
        executeSwap env params l = ({ success := false, error := some e }, l2)) := by
  refine ⟨?_, ?_, ?_⟩
  · intro env params l hinv
    by_cases h1 : (validateSlippage env params.slippageBps).isValid = false
    · rw [guardrails_slippage_fail env params l h1]
      exact validateSlippage_fail_reason env params.slippageBps h1
    · have h1' : (validateSlippage env params.slippageBps).isValid = true := by
        simpa using h1
      by_cases h2 : (validateTokenWhitelist env params.tokenIn params.tokenOut).1 = false
      · rw [guardrails_whitelist_fail env params l h1' h2]; rfl
      · have h2' : (validateTokenWhitelist env params.tokenIn params.tokenOut).1 = true := by
          simpa using h2
        by_cases h3 : (validateDailyVolumeLimit env params.walletAddress
            (tradeValueUsdOf env params) l).1.isValid = false
        · rw [guardrails_volume_fail env params l h1' h2' h3,
            validateDailyVolumeLimit_fail_reason env params.walletAddress
              (tradeValueUsdOf env params) l h3]
          rfl
        · have h3' : (validateDailyVolumeLimit env params.walletAddress
              (tradeValueUsdOf env params) l).1.isValid = true := by
            simpa using h3
          by_cases h4 : params.amountIn ≤ 0
          · rw [guardrails_amount_fail env params l h1' h2' h3' h4]; rfl
          · by_cases h5 : params.tokenIn = params.tokenOut
            · rw [guardrails_self_swap env params l h1' h2' h3' h4 h5]; rfl
            · rw [guardrails_success env params l h1' h2' h3' h4 h5] at hinv
              exact absurd hinv (by simp)
  · intro env params l
    unfold executeSwap executeSwapBody initializeLitWallet
    cases hw : env.walletOutcome with
    | error e => dsimp only; intro _; rfl
    | ok w =>
      dsimp only
      by_cases hpol : (validateTradingGuardrails env.policyEnv
          { tokenIn := params.tokenIn, tokenOut := params.tokenOut
            amountIn := params.amountIn, slippageBps := params.slippageBps
            walletAddress := w } l).result.isValid = false
      · rw [if_pos hpol]; intro _; rfl
      · rw [if_neg hpol]
        cases hinfo : env.tokenInfoOutcome with
        | error e => dsimp only; intro _; rfl
        | ok info =>
          dsimp only
          by_cases hbal : info.balance < params.amountIn
          · rw [if_pos hbal]; intro _; rfl
          · rw [if_neg hbal]
            cases hrt : env.routerAddress with
            | none => dsimp only; intro _; rfl
            | some r =>
              dsimp only
              cases happ : env.approveOutcome with
              | error e => dsimp only; intro _; rfl
              | ok a =>
                dsimp only
                cases hsw : env.swapOutcome (swapCallParamsOf env params) with
                | error e => dsimp only; intro _; rfl
                | ok receipt =>
                  dsimp only
                  intro hsucc
                  exact absurd hsucc (by simp)
  · intro env params l l2 e h
    unfold executeSwap
    rw [h]

/-- Witness for C8: a faulting approval step yields a failure result that
carries an error message. -/
theorem failures_propagate_as_results_witness :
    ((executeSwap c8SwapEnv c7SwapParams emptyLedger).1.error).isSome = true :=
  failures_propagate_as_results.2.1 c8SwapEnv c7SwapParams emptyLedger
    (by norm_num [executeSwap, executeSwapBody, initializeLitWallet,
      validateTradingGuardrails, validateSlippage, validateTokenWhitelist,
      getTokenPrices, tokenInPriceOf, tradeValueUsdOf, validateDailyVolumeLimit,
      c8SwapEnv, c7SwapEnv, c7SwapParams, c3Env, emptyLedger] <;> simp)

end CypherX
